import Mathlib

/-
Shallow embedding of the drift-monitoring core of the MLops-Election
repository: src/monitoring/drift_monitoring.py, src/monitoring/detect_drift.py
and airflow/dags/retrain_on_drift.py. Python floats are modelled as rationals,
pandas NaN cells as none, Python dicts as association lists with string keys,
and Python exceptions as an Except monad over an error-kind type.
-/

/-- Result of a two-sample distributional test: scipy.stats.ks_2samp returns a
statistic and a p-value. -/
structure KSResult where
  statistic : ℚ
  p_value : ℚ
  deriving DecidableEq

/-- Kinds of Python exception relevant to the monitoring code. valueError is
what scipy.stats.ks_2samp raises when a sample is empty; keyError and
typeError model dict access and comparison failures. insufficientDataError is
the error type named by the specification: no class of that name exists
anywhere in the repository, and the constructor is included only so that
statements about that error can be written down. -/
inductive PyError where
  | valueError
  | keyError
  | typeError
  | insufficientDataError
  deriving DecidableEq

/-- Values stored in the report dicts built by drift_monitoring.py. -/
inductive JVal where
  | b : Bool → JVal
  | q : ℚ → JVal
  | n : ℕ → JVal
  | s : String → JVal
  | strs : List String → JVal
  | scores : List (String × KSResult) → JVal
  deriving DecidableEq

/-- A Python dict with string keys, as built by the monitoring code. -/
abbrev PyDict := List (String × JVal)

/-- Dict subscription d[k]: KeyError when the key is absent. -/
def getItem (d : PyDict) (k : String) : Except PyError JVal :=
  match d.lookup k with
  | some v => .ok v
  | none => .error .keyError

/-- Dict subscription d[k] used where the code expects a bool. -/
def getB (d : PyDict) (k : String) : Except PyError Bool :=
  match getItem d k with
  | .ok (.b v) => .ok v
  | .ok _ => .error .typeError
  | .error e => .error e

/-- Dict subscription d[k] used where the code expects a float. -/
def getQ (d : PyDict) (k : String) : Except PyError ℚ :=
  match getItem d k with
  | .ok (.q v) => .ok v
  | .ok _ => .error .typeError
  | .error e => .error e

/-- Dict subscription d[k] used where the code expects an int. -/
def getN (d : PyDict) (k : String) : Except PyError ℕ :=
  match getItem d k with
  | .ok (.n v) => .ok v
  | .ok _ => .error .typeError
  | .error e => .error e

/-- A pandas DataFrame restricted to what the drift code reads from it: named
numeric columns whose cells may be NaN (modelled as none). -/
structure DataFrame where
  cols : List (String × List (Option ℚ))
  deriving DecidableEq

/-- The df.columns attribute. -/
def DataFrame.columns (df : DataFrame) : List String := df.cols.map Prod.fst

/-- Column selection df[c]; the monitoring code only selects columns it has
checked are present. -/
def DataFrame.col (df : DataFrame) (c : String) : List (Option ℚ) :=
  (df.cols.lookup c).getD []

/-- Series.dropna(): discard NaN cells. -/
def dropna (xs : List (Option ℚ)) : List ℚ := xs.filterMap id

/-- Model of scipy.stats.ks_2samp: on an empty sample it raises ValueError
(Data passed to ks_2samp must not be empty); on non-empty samples it returns
the statistic and p-value of the underlying deterministic two-sample test,
which is taken as a parameter ks because its numeric values are opaque to the
monitoring logic. -/
def ks_2samp (ks : List ℚ → List ℚ → KSResult) (xs ys : List ℚ) :
    Except PyError KSResult :=
  if xs = [] ∨ ys = [] then .error .valueError else .ok (ks xs ys)

/-- Config.DRIFT_THRESHOLD with the environment variable unset:
float(os.getenv("DRIFT_THRESHOLD", "0.1")) = 0.1. -/
def DRIFT_THRESHOLD : ℚ := 1/10

/-- DriftMonitor.__init__ threshold selection:
self.drift_threshold = drift_threshold or Config.DRIFT_THRESHOLD. A None
argument, and also the Python-falsy float 0.0, select the configured value. -/
def initThreshold (drift_threshold : Option ℚ) (config_threshold : ℚ) : ℚ :=
  match drift_threshold with
  | none => config_threshold
  | some t => if t = 0 then config_threshold else t

/-- The per-feature loop of DriftMonitor._simple_drift_detection: a column
absent from either table is skipped (continue); otherwise ks_2samp runs on the
NaN-stripped series, the score is recorded, and the feature is marked drifted
when p_value < 0.05. Returns the drifted-feature list and the score dict in
traversal order; a ks_2samp exception propagates. -/
def simpleLoop (ks : List ℚ → List ℚ → KSResult) (ref cur : DataFrame) :
    List String → Except PyError (List String × List (String × KSResult))
  | [] => .ok ([], [])
  | c :: rest =>
    if c ∈ ref.columns ∧ c ∈ cur.columns then
      match ks_2samp ks (dropna (ref.col c)) (dropna (cur.col c)) with
      | .error e => .error e
      | .ok r =>
        match simpleLoop ks ref cur rest with
        | .error e => .error e
        | .ok (drifted, scoresRest) =>
          .ok ((if r.p_value < 1/20 then c :: drifted else drifted),
               (c, r) :: scoresRest)
    else simpleLoop ks ref cur rest

/-- The dict literal assigned to self.drift_report at the end of
DriftMonitor._simple_drift_detection (nine keys, method "ks_test"). -/
def fallbackReportDict (now : String) (dd : Bool) (share : ℚ) (nd nf : ℕ)
    (drifted : List String) (scores : List (String × KSResult)) (thr : ℚ) :
    PyDict :=
  [("timestamp", .s now), ("drift_detected", .b dd), ("drift_share", .q share),
   ("n_drifted_features", .n nd), ("n_features", .n nf),
   ("drifted_features", .strs drifted), ("drift_scores", .scores scores),
   ("threshold", .q thr), ("method", .s "ks_test")]

/-- DriftMonitor._simple_drift_detection: run the per-feature loop, then
drift_share = len(drifted_features) / len(feature_columns) if feature_columns
else 0, and drift_detected = drift_share > self.drift_threshold. -/
def simple_drift_detection (ks : List ℚ → List ℚ → KSResult) (threshold : ℚ)
    (now : String) (ref cur : DataFrame) (feature_columns : List String) :
    Except PyError PyDict :=
  match simpleLoop ks ref cur feature_columns with
  | .error e => .error e
  | .ok (drifted, scores) =>
    let share : ℚ :=
      if feature_columns = [] then 0
      else (drifted.length : ℚ) / (feature_columns.length : ℚ)
    .ok (fallbackReportDict now (decide (share > threshold)) share
          drifted.length feature_columns.length drifted scores threshold)

/-- Outcome of the advanced (Evidently) strategy for one call: the library may
be missing at import time (EVIDENTLY_AVAILABLE = False), may raise while the
report runs or is parsed, or may succeed yielding the number of drift metrics
whose result reports drift (the n_drifted count extracted from the report). -/
inductive EvidentlyOutcome where
  | unavailable
  | raises
  | ok : ℕ → EvidentlyOutcome
  deriving DecidableEq

/-- The dict literal assigned to self.drift_report in the Evidently branch of
DriftMonitor.detect_data_drift (six keys, no method tag). -/
def evidentlyReportDict (now : String) (dd : Bool) (share : ℚ) (nd nf : ℕ)
    (thr : ℚ) : PyDict :=
  [("timestamp", .s now), ("drift_detected", .b dd), ("drift_share", .q share),
   ("n_drifted_features", .n nd), ("n_features", .n nf), ("threshold", .q thr)]

/-- DriftMonitor.detect_data_drift: when Evidently is unavailable the fallback
runs directly; when the Evidently branch raises, the except Exception handler
falls back as well; when it succeeds, drift_share = n_drifted /
len(feature_columns) if feature_columns else 0 and drift_detected =
drift_share > self.drift_threshold. -/
def detect_data_drift (ks : List ℚ → List ℚ → KSResult) (ev : EvidentlyOutcome)
    (threshold : ℚ) (now : String) (ref cur : DataFrame)
    (feature_columns : List String) : Except PyError PyDict :=
  match ev with
  | .unavailable => simple_drift_detection ks threshold now ref cur feature_columns
  | .raises => simple_drift_detection ks threshold now ref cur feature_columns
  | .ok n_drifted =>
    let share : ℚ :=
      if feature_columns = [] then 0
      else (n_drifted : ℚ) / (feature_columns.length : ℚ)
    .ok (evidentlyReportDict now (decide (share > threshold)) share n_drifted
          feature_columns.length threshold)

/-- Alert dict created by DriftDetector.create_alert, as a record (its keys
are fixed: timestamp, severity, type, message, details, action). -/
structure Alert where
  timestamp : String
  severity : String
  type : String
  message : String
  details : PyDict
  action : String
  deriving DecidableEq

/-- DriftDetector.create_alert: severity is "high" when the report's
drift_share exceeds 0.3 and "medium" otherwise; the message summarises
n_drifted_features out of n_features; details holds the whole report. -/
def create_alert (now : String) (drift_report : PyDict) : Except PyError Alert := do
  let share ← getQ drift_report "drift_share"
  let nd ← getN drift_report "n_drifted_features"
  let nf ← getN drift_report "n_features"
  pure { timestamp := now
         severity := if share > 3/10 then "high" else "medium"
         type := "data_drift"
         message := s!"Data drift detected! {nd} out of {nf} features have drifted."
         details := drift_report
         action := "Model retraining recommended" }

/-- The mapping returned by DriftDetector.check_drift. -/
structure CheckDriftResult where
  drift_report : PyDict
  alerts : List Alert
  action_required : Bool
  deriving DecidableEq

/-- DriftDetector.check_drift: run the monitor (the detector constructs its
DriftMonitor with no threshold argument, so the configured default applies),
and when the report flags drift create one alert and append it to the
instance alert history self.alerts; the returned mapping exposes the report,
the whole history and action_required. The instance state self.alerts is
passed in and the updated state is returned alongside the result; loading the
two CSV files is replaced by taking the loaded tables as arguments. -/
def check_drift (ks : List ℚ → List ℚ → KSResult) (ev : EvidentlyOutcome)
    (config_threshold : ℚ) (now : String) (alerts : List Alert)
    (ref cur : DataFrame) (feature_columns : List String) :
    Except PyError (CheckDriftResult × List Alert) := do
  let report ← detect_data_drift ks ev (initThreshold none config_threshold)
    now ref cur feature_columns
  let dd ← getB report "drift_detected"
  let alertsAfter ←
    if dd then do
      let a ← create_alert now report
      pure (alerts ++ [a])
    else pure alerts
  pure ({ drift_report := report, alerts := alertsAfter, action_required := dd },
        alertsAfter)

/-- A sequence of check_drift calls on one DriftDetector instance: the alert
history is threaded through the calls and each returned mapping is
collected. -/
def runCalls (ks : List ℚ → List ℚ → KSResult) (ev : EvidentlyOutcome)
    (config_threshold : ℚ) (now : String) :
    List (DataFrame × DataFrame × List String) → List Alert →
    Except PyError (List CheckDriftResult × List Alert)
  | [], alerts => pure ([], alerts)
  | (ref, cur, cols) :: rest, alerts => do
    let (res, alertsAfter) ← check_drift ks ev config_threshold now alerts ref cur cols
    let (results, finalAlerts) ← runCalls ks ev config_threshold now rest alertsAfter
    pure (res :: results, finalAlerts)

/-- The nine tasks of the election_retrain_on_drift DAG, by task id; the task
with id end is written task_end after its Python variable name. -/
inductive DagTask where
  | collect_recent_data
  | detect_drift
  | check_drift_decision
  | trigger_retrain
  | evaluate_new_model
  | deploy_to_staging
  | send_drift_alert
  | skip_retrain
  | task_end
  deriving DecidableEq, Fintype

/-- Upstream tasks of each task, read off the dependency lines
task_collect >> task_drift >> task_branch,
task_branch >> task_retrain >> task_evaluate >> task_deploy >> task_alert >> task_end,
task_branch >> task_skip >> task_end. -/
def upstreams : DagTask → List DagTask
  | .collect_recent_data => []
  | .detect_drift => [.collect_recent_data]
  | .check_drift_decision => [.detect_drift]
  | .trigger_retrain => [.check_drift_decision]
  | .evaluate_new_model => [.trigger_retrain]
  | .deploy_to_staging => [.evaluate_new_model]
  | .send_drift_alert => [.deploy_to_staging]
  | .skip_retrain => [.check_drift_decision]
  | .task_end => [.send_drift_alert, .skip_retrain]

/-- Airflow trigger rules used in this DAG. -/
inductive TriggerRule where
  | all_success
  | none_failed_min_one_success
  deriving DecidableEq

/-- Every task uses the Airflow default all_success, except the end task which
is declared with trigger_rule none_failed_min_one_success. -/
def triggerRule : DagTask → TriggerRule
  | .task_end => .none_failed_min_one_success
  | _ => .all_success

/-- Terminal state of one task instance within a run. -/
inductive TaskState where
  | success
  | failed
  | skipped
  deriving DecidableEq, Fintype

/-- Airflow scheduling of one task from its upstream states: all_success
fails the task (upstream_failed) on a failed upstream and skips it on a
skipped upstream; none_failed_min_one_success runs the task when no upstream
failed and at least one succeeded, skips it when none failed but none
succeeded, and fails it when an upstream failed. -/
def ruleEval : TriggerRule → List TaskState → TaskState
  | .all_success, ups =>
    if ups.any (· = .failed) then .failed
    else if ups.any (· = .skipped) then .skipped
    else .success
  | .none_failed_min_one_success, ups =>
    if ups.any (· = .failed) then .failed
    else if ups.any (· = .success) then .success
    else .skipped

/-- The check_drift_decision branch callable: pull the drift_detected XCom
(None when detect_drift never pushed the key) and return the task id of the
branch to follow; Python truthiness sends both False and None to
skip_retrain. -/
def check_drift_decision (drift_detected : Option Bool) : DagTask :=
  if drift_detected = some true then .trigger_retrain else .skip_retrain

/-- Observable outcome of the detect_drift task callable. -/
structure DriftTaskResult where
  engine_invoked : Bool
  xcom_drift_detected : Option Bool
  deriving DecidableEq

/-- Body of the detect_drift task: when the reference feature table is missing
(reference_path.exists() is false) it logs and returns False without
constructing a DriftMonitor and without pushing any XCom; otherwise it runs
detect_data_drift on a monitor built with the default threshold and pushes the
report verdict under the drift_detected key. engine_invoked records whether
the call to detect_data_drift was reached. -/
def detect_drift_task (ks : List ℚ → List ℚ → KSResult) (ev : EvidentlyOutcome)
    (config_threshold : ℚ) (now : String) (reference_exists : Bool)
    (ref cur : DataFrame) (feature_names : List String) :
    Except PyError DriftTaskResult :=
  if reference_exists = false then
    pure { engine_invoked := false, xcom_drift_detected := none }
  else do
    let report ← detect_data_drift ks ev (initThreshold none config_threshold)
      now ref cur feature_names
    let dd ← getB report "drift_detected"
    pure { engine_invoked := true, xcom_drift_detected := some dd }

/-- A topological order of the DAG tasks. -/
def dagOrder : List DagTask :=
  [.collect_recent_data, .detect_drift, .check_drift_decision, .trigger_retrain,
   .evaluate_new_model, .deploy_to_staging, .send_drift_alert, .skip_retrain,
   .task_end]

/-- Scheduling of one task given the branch choice and the states of earlier
tasks. BranchPythonOperator semantics: a direct downstream of
check_drift_decision other than the returned task id is marked skipped;
every other task follows its trigger rule over its upstream states. -/
def evalTask (chosen : DagTask) (st : DagTask → TaskState) (t : DagTask) : TaskState :=
  if DagTask.check_drift_decision ∈ upstreams t ∧ t ≠ chosen then .skipped
  else ruleEval (triggerRule t) ((upstreams t).map st)

/-- Pointwise update of a task-state assignment. -/
def updState (st : DagTask → TaskState) (t : DagTask) (v : TaskState) :
    DagTask → TaskState :=
  fun u => if u = t then v else st u

/-- Evaluate the whole DAG in dependency order given the branch choice. The
task callables themselves are assumed not to raise: trigger_retrain catches
its own exceptions, and failures of the other callables are outside the
claims under study. -/
def runStates (chosen : DagTask) : DagTask → TaskState :=
  dagOrder.foldl (fun st t => updState st t (evalTask chosen st t))
    (fun _ => .skipped)

/-- Observable outcome of one WorkflowRun: whether the Drift Analysis Engine
was invoked, and the terminal state of every task. -/
structure RunOutcome where
  engine_invoked : Bool
  states : DagTask → TaskState

/-- One WorkflowRun of the retrain-on-drift DAG: collect recent data (assumed
to succeed), run the detect_drift task, branch on the pulled verdict, and let
the scheduler resolve every task state. -/
def runDag (ks : List ℚ → List ℚ → KSResult) (ev : EvidentlyOutcome)
    (config_threshold : ℚ) (now : String) (reference_exists : Bool)
    (ref cur : DataFrame) (feature_names : List String) :
    Except PyError RunOutcome := do
  let dr ← detect_drift_task ks ev config_threshold now reference_exists
    ref cur feature_names
  let chosen := check_drift_decision dr.xcom_drift_detected
  pure { engine_invoked := dr.engine_invoked, states := runStates chosen }

/-
Helper lemmas about the two report shapes: every lookup below traverses a
dict whose keys are string literals, so the kernel settles it.
-/

lemma lookup_fallback_dd (now : String) (dd : Bool) (share : ℚ) (nd nf : ℕ)
    (drifted : List String) (scores : List (String × KSResult)) (thr : ℚ) :
    (fallbackReportDict now dd share nd nf drifted scores thr).lookup
      "drift_detected" = some (.b dd) := rfl

lemma lookup_fallback_share (now : String) (dd : Bool) (share : ℚ) (nd nf : ℕ)
    (drifted : List String) (scores : List (String × KSResult)) (thr : ℚ) :
    (fallbackReportDict now dd share nd nf drifted scores thr).lookup
      "drift_share" = some (.q share) := rfl

lemma lookup_fallback_nfeatures (now : String) (dd : Bool) (share : ℚ) (nd nf : ℕ)
    (drifted : List String) (scores : List (String × KSResult)) (thr : ℚ) :
    (fallbackReportDict now dd share nd nf drifted scores thr).lookup
      "n_features" = some (.n nf) := rfl

lemma lookup_fallback_threshold (now : String) (dd : Bool) (share : ℚ) (nd nf : ℕ)
    (drifted : List String) (scores : List (String × KSResult)) (thr : ℚ) :
    (fallbackReportDict now dd share nd nf drifted scores thr).lookup
      "threshold" = some (.q thr) := rfl

lemma lookup_fallback_method (now : String) (dd : Bool) (share : ℚ) (nd nf : ℕ)
    (drifted : List String) (scores : List (String × KSResult)) (thr : ℚ) :
    (fallbackReportDict now dd share nd nf drifted scores thr).lookup
      "method" = some (.s "ks_test") := rfl

lemma lookup_fallback_drifted (now : String) (dd : Bool) (share : ℚ) (nd nf : ℕ)
    (drifted : List String) (scores : List (String × KSResult)) (thr : ℚ) :
    (fallbackReportDict now dd share nd nf drifted scores thr).lookup
      "drifted_features" = some (.strs drifted) := rfl

lemma keys_fallback (now : String) (dd : Bool) (share : ℚ) (nd nf : ℕ)
    (drifted : List String) (scores : List (String × KSResult)) (thr : ℚ) :
    (fallbackReportDict now dd share nd nf drifted scores thr).map Prod.fst =
      ["timestamp", "drift_detected", "drift_share", "n_drifted_features",
       "n_features", "drifted_features", "drift_scores", "threshold",
       "method"] := rfl

lemma lookup_ev_dd (now : String) (dd : Bool) (share : ℚ) (nd nf : ℕ) (thr : ℚ) :
    (evidentlyReportDict now dd share nd nf thr).lookup "drift_detected" =
      some (.b dd) := rfl

lemma lookup_ev_share (now : String) (dd : Bool) (share : ℚ) (nd nf : ℕ) (thr : ℚ) :
    (evidentlyReportDict now dd share nd nf thr).lookup "drift_share" =
      some (.q share) := rfl

lemma lookup_ev_threshold (now : String) (dd : Bool) (share : ℚ) (nd nf : ℕ) (thr : ℚ) :
    (evidentlyReportDict now dd share nd nf thr).lookup "threshold" =
      some (.q thr) := rfl

lemma keys_ev (now : String) (dd : Bool) (share : ℚ) (nd nf : ℕ) (thr : ℚ) :
    (evidentlyReportDict now dd share nd nf thr).map Prod.fst =
      ["timestamp", "drift_detected", "drift_share", "n_drifted_features",
       "n_features", "threshold"] := rfl

lemma getB_fallback (now : String) (dd : Bool) (share : ℚ) (nd nf : ℕ)
    (drifted : List String) (scores : List (String × KSResult)) (thr : ℚ) :
    getB (fallbackReportDict now dd share nd nf drifted scores thr)
      "drift_detected" = .ok dd := rfl

lemma getB_ev (now : String) (dd : Bool) (share : ℚ) (nd nf : ℕ) (thr : ℚ) :
    getB (evidentlyReportDict now dd share nd nf thr) "drift_detected" =
      .ok dd := rfl

lemma create_alert_fallback (now2 now : String) (dd : Bool) (share : ℚ)
    (nd nf : ℕ) (drifted : List String) (scores : List (String × KSResult))
    (thr : ℚ) :
    create_alert now2 (fallbackReportDict now dd share nd nf drifted scores thr) =
      .ok { timestamp := now2
            severity := if share > 3/10 then "high" else "medium"
            type := "data_drift"
            message := s!"Data drift detected! {nd} out of {nf} features have drifted."
            details := fallbackReportDict now dd share nd nf drifted scores thr
            action := "Model retraining recommended" } := rfl

lemma create_alert_ev (now2 now : String) (dd : Bool) (share : ℚ) (nd nf : ℕ)
    (thr : ℚ) :
    create_alert now2 (evidentlyReportDict now dd share nd nf thr) =
      .ok { timestamp := now2
            severity := if share > 3/10 then "high" else "medium"
            type := "data_drift"
            message := s!"Data drift detected! {nd} out of {nf} features have drifted."
            details := evidentlyReportDict now dd share nd nf thr
            action := "Model retraining recommended" } := rfl


lemma detect_data_drift_shape (ks : List ℚ → List ℚ → KSResult)
    (ev : EvidentlyOutcome) (thr : ℚ) (now : String) (ref cur : DataFrame)
    (cols : List String) (r : PyDict)
    (h : detect_data_drift ks ev thr now ref cur cols = .ok r) :
    (∃ share nd, r = evidentlyReportDict now (decide (share > thr)) share nd
        cols.length thr)
    ∨ (∃ share drifted scores,
        r = fallbackReportDict now (decide (share > thr)) share drifted.length
          cols.length drifted scores thr
        ∧ simpleLoop ks ref cur cols = .ok (drifted, scores)
        ∧ share = (if cols = [] then 0 else
            (drifted.length : ℚ) / (cols.length : ℚ))) := by
  cases ev with
  | ok n =>
    left
    simp only [detect_data_drift] at h
    exact ⟨_, n, ((Except.ok.injEq _ _).mp h).symm⟩
  | unavailable =>
    right
    simp only [detect_data_drift, simple_drift_detection] at h
    cases hl : simpleLoop ks ref cur cols with
    | error e => rw [hl] at h; exact absurd h (by simp)
    | ok p =>
      obtain ⟨drifted, scores⟩ := p
      rw [hl] at h
      exact ⟨_, drifted, scores, ((Except.ok.injEq _ _).mp h).symm, rfl, rfl⟩
  | raises =>
    right
    simp only [detect_data_drift, simple_drift_detection] at h
    cases hl : simpleLoop ks ref cur cols with
    | error e => rw [hl] at h; exact absurd h (by simp)
    | ok p =>
      obtain ⟨drifted, scores⟩ := p
      rw [hl] at h
      exact ⟨_, drifted, scores, ((Except.ok.injEq _ _).mp h).symm, rfl, rfl⟩

lemma simpleLoop_error_eq (ks : List ℚ → List ℚ → KSResult)
    (ref cur : DataFrame) :
    ∀ cols e, simpleLoop ks ref cur cols = .error e → e = .valueError := by
  intro cols
  induction cols with
  | nil => intro e h; simp [simpleLoop] at h
  | cons c rest ih =>
    intro e h
    simp only [simpleLoop] at h
    split at h
    · split at h
      · rename_i e2 heq
        rw [ks_2samp] at heq
        split at heq
        · cases heq
          cases h
          rfl
        · cases heq
      · split at h
        · rename_i e2 heq
          cases h
          exact ih _ heq
        · cases h
    · exact ih e h

lemma simpleLoop_mem (ks : List ℚ → List ℚ → KSResult) (ref cur : DataFrame) :
    ∀ cols drifted scores, simpleLoop ks ref cur cols = .ok (drifted, scores) →
      ∀ c ∈ drifted, c ∈ cols ∧ c ∈ ref.columns ∧ c ∈ cur.columns := by
  intro cols
  induction cols with
  | nil =>
    intro drifted scores h c hc
    simp only [simpleLoop] at h
    cases h
    simp at hc
  | cons c0 rest ih =>
    intro drifted scores h c hc
    simp only [simpleLoop] at h
    split at h
    · rename_i hcols
      split at h
      · cases h
      · split at h
        · cases h
        · rename_i r heqr p d s heq
          cases h
          by_cases hdc : c ∈ d
          · have := ih d s heq c hdc
            exact ⟨List.mem_cons_of_mem _ this.1, this.2.1, this.2.2⟩
          · have hcc : c = c0 := by
              by_cases hp : r.p_value < 1/20
              · rw [if_pos hp] at hc
                rcases List.mem_cons.mp hc with h1 | h1
                · exact h1
                · exact absurd h1 hdc
              · rw [if_neg hp] at hc
                exact absurd hc hdc
            subst hcc
            exact ⟨List.mem_cons_self _ _, hcols.1, hcols.2⟩
    · have := ih drifted scores h c hc
      exact ⟨List.mem_cons_of_mem _ this.1, this.2.1, this.2.2⟩

lemma simpleLoop_error_of_empty (ks : List ℚ → List ℚ → KSResult)
    (ref cur : DataFrame) :
    ∀ cols, (∃ c ∈ cols, (c ∈ ref.columns ∧ c ∈ cur.columns)
        ∧ (dropna (ref.col c) = [] ∨ dropna (cur.col c) = [])) →
      ∃ e, simpleLoop ks ref cur cols = .error e := by
  intro cols
  induction cols with
  | nil => rintro ⟨c, hc, _⟩; simp at hc
  | cons c0 rest ih =>
    rintro ⟨c, hc, hin, hemp⟩
    rcases List.mem_cons.mp hc with hcc | hcrest
    · subst hcc
      refine ⟨.valueError, ?_⟩
      simp only [simpleLoop, if_pos hin, ks_2samp, if_pos hemp]
    · by_cases hc0 : c0 ∈ ref.columns ∧ c0 ∈ cur.columns
      · by_cases hemp0 : dropna (ref.col c0) = [] ∨ dropna (cur.col c0) = []
        · refine ⟨.valueError, ?_⟩
          simp only [simpleLoop, if_pos hc0, ks_2samp, if_pos hemp0]
        · obtain ⟨e, he⟩ := ih ⟨c, hcrest, hin, hemp⟩
          refine ⟨e, ?_⟩
          simp only [simpleLoop, if_pos hc0, ks_2samp, if_neg hemp0, he]
      · obtain ⟨e, he⟩ := ih ⟨c, hcrest, hin, hemp⟩
        refine ⟨e, ?_⟩
        simp only [simpleLoop, if_neg hc0, he]

lemma bind_ok_py {α β : Type} (x : α) (f : α → Except PyError β) :
    (Except.ok x >>= f) = f x := rfl

lemma check_drift_ok (ks : List ℚ → List ℚ → KSResult) (ev : EvidentlyOutcome)
    (cfg : ℚ) (now : String) (alerts : List Alert) (ref cur : DataFrame)
    (cols : List String) (report : PyDict) (dd : Bool) (a : Alert)
    (hd : detect_data_drift ks ev (initThreshold none cfg) now ref cur cols =
      .ok report)
    (hb : getB report "drift_detected" = .ok dd)
    (ha : create_alert now report = .ok a) :
    check_drift ks ev cfg now alerts ref cur cols =
      .ok ({ drift_report := report,
             alerts := if dd then alerts ++ [a] else alerts,
             action_required := dd },
           if dd then alerts ++ [a] else alerts) := by
  simp only [check_drift, hd, bind_ok_py, hb]
  cases dd with
  | true => simp [ha, bind_ok_py, pure, Except.pure]
  | false => simp [bind_ok_py, pure, Except.pure]

lemma simple_drift_detection_ok (ks : List ℚ → List ℚ → KSResult) (thr : ℚ)
    (now : String) (ref cur : DataFrame) (cols : List String) (r : PyDict)
    (h : simple_drift_detection ks thr now ref cur cols = .ok r) :
    ∃ drifted scores, simpleLoop ks ref cur cols = .ok (drifted, scores)
      ∧ r = fallbackReportDict now
          (decide ((if cols = [] then (0:ℚ) else
            (drifted.length : ℚ) / (cols.length : ℚ)) > thr))
          (if cols = [] then (0:ℚ) else
            (drifted.length : ℚ) / (cols.length : ℚ))
          drifted.length cols.length drifted scores thr := by
  simp only [simple_drift_detection] at h
  cases hl : simpleLoop ks ref cur cols with
  | error e => rw [hl] at h; exact absurd h (by simp)
  | ok p =>
    obtain ⟨d, s⟩ := p
    rw [hl] at h
    exact ⟨d, s, rfl, ((Except.ok.injEq _ _).mp h).symm⟩

/-
Concrete fixtures for witnesses and counterexamples: a two-sample test that
never flags drift (p-value 1), one that always flags drift (p-value 0), a
table with the single column a, and a table whose column a is all NaN.
-/

def ksCalm : List ℚ → List ℚ → KSResult := fun _ _ => ⟨0, 1⟩

def ksSharp : List ℚ → List ℚ → KSResult := fun _ _ => ⟨1, 0⟩

def dfOnlyA : DataFrame := ⟨[("a", [some 1])]⟩

def dfAllNaN : DataFrame := ⟨[("a", [none])]⟩

/-- C2: every report detect_data_drift returns, under either strategy, stores
drift_detected = (drift_share > threshold), where threshold is the monitor's
configured drift_threshold at the time of the call and is also the report's
threshold field. -/
theorem C2_drift_detected_iff_share_gt_threshold
    (ks : List ℚ → List ℚ → KSResult) (ev : EvidentlyOutcome) (thr : ℚ)
    (now : String) (ref cur : DataFrame) (cols : List String) (r : PyDict)
    (h : detect_data_drift ks ev thr now ref cur cols = .ok r) :
    ∃ share, r.lookup "drift_share" = some (.q share)
      ∧ r.lookup "threshold" = some (.q thr)
      ∧ r.lookup "drift_detected" = some (.b (decide (share > thr))) := by
  rcases detect_data_drift_shape ks ev thr now ref cur cols r h with
    ⟨share, nd, rfl⟩ | ⟨share, drifted, scores, rfl, hloop, hshare⟩
  · exact ⟨share, rfl, rfl, rfl⟩
  · exact ⟨share, rfl, rfl, rfl⟩

/-- C2 witness: the advanced strategy at an empty feature list gives a report
whose drift_detected field is the stated comparison. -/
theorem C2_witness :
    detect_data_drift ksCalm (.ok 0) (1/10) "t" dfOnlyA dfOnlyA [] =
      .ok (evidentlyReportDict "t" (decide ((0:ℚ) > 1/10)) 0 0 0 (1/10))
    ∧ ∃ share,
      (evidentlyReportDict "t" (decide ((0:ℚ) > 1/10)) 0 0 0 (1/10)).lookup
        "drift_share" = some (.q share)
      ∧ (evidentlyReportDict "t" (decide ((0:ℚ) > 1/10)) 0 0 0 (1/10)).lookup
          "threshold" = some (.q (1/10))
      ∧ (evidentlyReportDict "t" (decide ((0:ℚ) > 1/10)) 0 0 0 (1/10)).lookup
          "drift_detected" = some (.b (decide (share > 1/10))) :=
  ⟨rfl, C2_drift_detected_iff_share_gt_threshold ksCalm (.ok 0) (1/10) "t"
    dfOnlyA dfOnlyA [] _ rfl⟩

/-- C6 counterexample: constructing a DriftMonitor with drift_threshold 0.0
does not give an effective threshold of 0: the Python expression
drift_threshold or Config.DRIFT_THRESHOLD treats 0.0 as falsy and selects the
configured default 0.1. -/
theorem C6_counterexample :
    initThreshold (some 0) DRIFT_THRESHOLD = DRIFT_THRESHOLD
    ∧ DRIFT_THRESHOLD ≠ 0 :=
  ⟨rfl, by norm_num [DRIFT_THRESHOLD]⟩

/-- C6 (amended): a non-zero drift_threshold argument overrides the configured
default, a None argument selects the default, and the Python-falsy argument
0.0 also selects the default instead of itself. -/
theorem C6_threshold_override (t cfg : ℚ) (h : t ≠ 0) :
    initThreshold (some t) cfg = t
    ∧ initThreshold none cfg = cfg
    ∧ initThreshold (some 0) cfg = cfg := by
  refine ⟨?_, rfl, ?_⟩
  · simp [initThreshold, h]
  · simp [initThreshold]

/-- C6 witness at t = 1. -/
theorem C6_witness :
    (1:ℚ) ≠ 0
    ∧ initThreshold (some 1) DRIFT_THRESHOLD = 1
    ∧ initThreshold none DRIFT_THRESHOLD = DRIFT_THRESHOLD
    ∧ initThreshold (some 0) DRIFT_THRESHOLD = DRIFT_THRESHOLD :=
  ⟨one_ne_zero,
    (C6_threshold_override 1 DRIFT_THRESHOLD one_ne_zero).1,
    (C6_threshold_override 1 DRIFT_THRESHOLD one_ne_zero).2.1,
    (C6_threshold_override 1 DRIFT_THRESHOLD one_ne_zero).2.2⟩

/-- C1 counterexample: with reference and current tables holding only column
a and configured feature list [a, b], the report's n_features is 2, the length
of the configured list, while the intersection of the list with the columns
present in both tables has size 1. -/
theorem C1_counterexample :
    (detect_data_drift ksCalm .unavailable (1/10) "t" dfOnlyA dfOnlyA
        ["a", "b"]).map (fun r => r.lookup "n_features") = .ok (some (.n 2))
    ∧ (["a", "b"].filter (fun c =>
        decide (c ∈ dfOnlyA.columns) && decide (c ∈ dfOnlyA.columns))).length = 1
    ∧ (2 : ℕ) ≠ 1 :=
  ⟨rfl, rfl, by decide⟩

/-- C1 (amended): in the fallback strategy (which detect_data_drift runs when
Evidently is unavailable), features missing from either table are skipped and
cannot appear among the drifted features, but n_features and the drift_share
denominator are the length of the configured feature_names list, not the size
of the intersection actually present. -/
theorem C1_nfeatures_is_configured_list_length
    (ks : List ℚ → List ℚ → KSResult) (thr : ℚ) (now : String)
    (ref cur : DataFrame) (cols : List String) (r : PyDict)
    (h : simple_drift_detection ks thr now ref cur cols = .ok r) :
    detect_data_drift ks .unavailable thr now ref cur cols =
      simple_drift_detection ks thr now ref cur cols
    ∧ r.lookup "n_features" = some (.n cols.length)
    ∧ ∃ drifted, r.lookup "drifted_features" = some (.strs drifted)
      ∧ r.lookup "drift_share" = some (.q (if cols = [] then (0:ℚ) else
          (drifted.length : ℚ) / (cols.length : ℚ)))
      ∧ ∀ c ∈ drifted, c ∈ cols ∧ c ∈ ref.columns ∧ c ∈ cur.columns := by
  obtain ⟨drifted, scores, hloop, rfl⟩ :=
    simple_drift_detection_ok ks thr now ref cur cols r h
  exact ⟨rfl, rfl, drifted, rfl, rfl,
    fun c hc => simpleLoop_mem ks ref cur cols drifted scores hloop c hc⟩

/-- Report produced by the fallback strategy on the C1 witness input. -/
def wNoDriftReport : PyDict :=
  fallbackReportDict "t" false 0 0 2 [] [("a", ⟨0, 1⟩)] (1/10)

lemma simpleLoop_nil (ks : List ℚ → List ℚ → KSResult) (ref cur : DataFrame) :
    simpleLoop ks ref cur [] = .ok ([], []) := rfl

lemma simpleLoop_cons_skip (ks : List ℚ → List ℚ → KSResult)
    (ref cur : DataFrame) (c : String) (rest : List String)
    (h : ¬ (c ∈ ref.columns ∧ c ∈ cur.columns)) :
    simpleLoop ks ref cur (c :: rest) = simpleLoop ks ref cur rest := by
  simp only [simpleLoop, if_neg h]

lemma simpleLoop_cons_run (ks : List ℚ → List ℚ → KSResult)
    (ref cur : DataFrame) (c : String) (rest : List String)
    (hc : c ∈ ref.columns ∧ c ∈ cur.columns)
    (hne : ¬ (dropna (ref.col c) = [] ∨ dropna (cur.col c) = [])) :
    simpleLoop ks ref cur (c :: rest) =
      match simpleLoop ks ref cur rest with
      | .error e => .error e
      | .ok (drifted, scoresRest) =>
        .ok ((if (ks (dropna (ref.col c)) (dropna (cur.col c))).p_value < 1/20
                then c :: drifted else drifted),
             (c, ks (dropna (ref.col c)) (dropna (cur.col c))) :: scoresRest) := by
  simp only [simpleLoop, if_pos hc, ks_2samp, if_neg hne]

lemma wLoopCalm :
    simpleLoop ksCalm dfOnlyA dfOnlyA ["a", "b"] = .ok ([], [("a", ⟨0, 1⟩)]) := by
  rw [simpleLoop_cons_run ksCalm dfOnlyA dfOnlyA "a" ["b"] (by decide) (by decide),
    simpleLoop_cons_skip ksCalm dfOnlyA dfOnlyA "b" [] (by decide),
    simpleLoop_nil]
  norm_num [ksCalm]

lemma wNoDriftReport_eval :
    simple_drift_detection ksCalm (1/10) "t" dfOnlyA dfOnlyA ["a", "b"] =
      .ok wNoDriftReport := by
  simp only [simple_drift_detection, wLoopCalm]
  norm_num [wNoDriftReport, fallbackReportDict]

/-- C1 witness: the amended statement at the counterexample input. -/
theorem C1_witness :
    simple_drift_detection ksCalm (1/10) "t" dfOnlyA dfOnlyA ["a", "b"] =
      .ok wNoDriftReport
    ∧ wNoDriftReport.lookup "n_features" = some (.n 2) :=
  ⟨wNoDriftReport_eval,
    (C1_nfeatures_is_configured_list_length ksCalm (1/10) "t" dfOnlyA dfOnlyA
      ["a", "b"] wNoDriftReport wNoDriftReport_eval).2.1⟩

/-- C4 counterexample: the fallback report is tagged method "ks_test", not
"fallback", and the advanced-strategy report has six keys while the fallback
report has nine, so the field sets of the two strategies differ. -/
theorem C4_counterexample :
    (detect_data_drift ksCalm .unavailable (1/10) "t" dfOnlyA dfOnlyA
        ["a"]).map (fun r => r.lookup "method") = .ok (some (.s "ks_test"))
    ∧ (JVal.s "ks_test") ≠ (JVal.s "fallback")
    ∧ (detect_data_drift ksCalm (.ok 0) (1/10) "t" dfOnlyA dfOnlyA
        ["a"]).map (fun r => r.map Prod.fst) =
      .ok ["timestamp", "drift_detected", "drift_share",
           "n_drifted_features", "n_features", "threshold"]
    ∧ (detect_data_drift ksCalm .unavailable (1/10) "t" dfOnlyA dfOnlyA
        ["a"]).map (fun r => r.map Prod.fst) =
      .ok ["timestamp", "drift_detected", "drift_share",
           "n_drifted_features", "n_features", "drifted_features",
           "drift_scores", "threshold", "method"]
    ∧ (["timestamp", "drift_detected", "drift_share", "n_drifted_features",
        "n_features", "threshold"] : List String) ≠
      ["timestamp", "drift_detected", "drift_share", "n_drifted_features",
       "n_features", "drifted_features", "drift_scores", "threshold",
       "method"] :=
  ⟨rfl, by decide, rfl, rfl, by decide⟩

/-- C4 (amended): when the advanced strategy is unavailable or raises,
detect_data_drift returns exactly the fallback strategy's result (no advanced
exception escapes this operation); a successful fallback report is tagged
method "ks_test"; and every key of the advanced report also appears in the
fallback report, which adds drifted_features, drift_scores and method. -/
theorem C4_fallback_transparent (ks : List ℚ → List ℚ → KSResult) (thr : ℚ)
    (now : String) (ref cur : DataFrame) (cols : List String) :
    detect_data_drift ks .unavailable thr now ref cur cols =
      simple_drift_detection ks thr now ref cur cols
    ∧ detect_data_drift ks .raises thr now ref cur cols =
      simple_drift_detection ks thr now ref cur cols
    ∧ (∀ r, simple_drift_detection ks thr now ref cur cols = .ok r →
        r.lookup "method" = some (.s "ks_test"))
    ∧ (∀ n r1 r2, detect_data_drift ks (.ok n) thr now ref cur cols = .ok r1 →
        simple_drift_detection ks thr now ref cur cols = .ok r2 →
        r1.map Prod.fst ⊆ r2.map Prod.fst) := by
  refine ⟨rfl, rfl, ?_, ?_⟩
  · intro r h
    obtain ⟨d, s, hl, rfl⟩ := simple_drift_detection_ok ks thr now ref cur cols r h
    rfl
  · intro n r1 r2 h1 h2
    have hr1 : r1 = evidentlyReportDict now
        (decide ((if cols = [] then (0:ℚ) else
          (n : ℚ) / (cols.length : ℚ)) > thr))
        (if cols = [] then (0:ℚ) else (n : ℚ) / (cols.length : ℚ))
        n cols.length thr := by
      simp only [detect_data_drift] at h1
      exact ((Except.ok.injEq _ _).mp h1).symm
    obtain ⟨d, s, hl, rfl⟩ := simple_drift_detection_ok ks thr now ref cur cols r2 h2
    subst hr1
    rw [keys_ev, keys_fallback]
    decide

/-- C5 counterexample: a feature whose reference series is all NaN makes the
fallback detection fail with the ValueError that scipy.stats.ks_2samp raises
on empty input, not with an InsufficientDataError. -/
theorem C5_counterexample :
    simple_drift_detection ksCalm (1/10) "t" dfAllNaN dfOnlyA ["a"] =
      .error .valueError
    ∧ (Except.error PyError.valueError : Except PyError PyDict) ≠
      .error .insufficientDataError :=
  ⟨rfl, by simp⟩

/-- C5 (amended): whenever some configured feature is present in both tables
and its reference or current series is empty after NaN removal, the fallback
detection fails — with the ValueError propagated from scipy.stats.ks_2samp
(no InsufficientDataError type exists in the code) — rather than producing a
report. -/
theorem C5_empty_series_raises_value_error (ks : List ℚ → List ℚ → KSResult)
    (thr : ℚ) (now : String) (ref cur : DataFrame) (cols : List String)
    (h : ∃ c ∈ cols, (c ∈ ref.columns ∧ c ∈ cur.columns)
        ∧ (dropna (ref.col c) = [] ∨ dropna (cur.col c) = [])) :
    simple_drift_detection ks thr now ref cur cols = .error .valueError
    ∧ simple_drift_detection ks thr now ref cur cols ≠
      .error .insufficientDataError := by
  obtain ⟨e, he⟩ := simpleLoop_error_of_empty ks ref cur cols h
  have hv := simpleLoop_error_eq ks ref cur cols e he
  subst hv
  constructor
  · simp only [simple_drift_detection, he]
  · simp only [simple_drift_detection, he]
    simp

/-- C5 witness: reference column a all NaN, current column a present. -/
theorem C5_witness :
    (∃ c ∈ (["a"] : List String),
        (c ∈ dfAllNaN.columns ∧ c ∈ dfOnlyA.columns)
        ∧ (dropna (dfAllNaN.col c) = [] ∨ dropna (dfOnlyA.col c) = []))
    ∧ simple_drift_detection ksCalm (1/10) "t" dfAllNaN dfOnlyA ["a"] =
      .error .valueError :=
  ⟨by decide,
    (C5_empty_series_raises_value_error ksCalm (1/10) "t" dfAllNaN dfOnlyA
      ["a"] (by decide)).1⟩

/-- C3: for every successful DriftDetector.check_drift call, when the report
flags drift exactly one Alert is appended to the history, its severity is
"high" iff the report's drift_share exceeds 0.3 and "medium" otherwise, and
action_required is true; when the report does not flag drift no Alert is
created and action_required is false. -/
theorem C3_alert_severity_and_history
    (ks : List ℚ → List ℚ → KSResult) (ev : EvidentlyOutcome) (cfg : ℚ)
    (now : String) (alerts : List Alert) (ref cur : DataFrame)
    (cols : List String) (res : CheckDriftResult) (after : List Alert)
    (h : check_drift ks ev cfg now alerts ref cur cols = .ok (res, after)) :
    ∀ dd, res.drift_report.lookup "drift_detected" = some (.b dd) →
      res.action_required = dd
      ∧ (dd = true → ∃ a share, after = alerts ++ [a]
          ∧ res.drift_report.lookup "drift_share" = some (.q share)
          ∧ a.severity = (if share > 3/10 then "high" else "medium")
          ∧ (a.severity = "high" ↔ share > 3/10)
          ∧ (a.severity = "medium" ↔ ¬ share > 3/10))
      ∧ (dd = false → after = alerts) := by
  cases hd : detect_data_drift ks ev (initThreshold none cfg) now ref cur cols with
  | error e =>
    exfalso
    simp only [check_drift, hd] at h
    exact absurd h (by simp [Bind.bind, Except.bind])
  | ok report =>
    rcases detect_data_drift_shape ks ev (initThreshold none cfg) now ref cur
        cols report hd with ⟨share, nd, hrep⟩ | ⟨share, d, s, hrep, hloop, hshare⟩
    all_goals subst hrep
    · have hck := check_drift_ok ks ev cfg now alerts ref cur cols _
        (decide (share > initThreshold none cfg)) _ hd (getB_ev ..) (create_alert_ev ..)
      rw [hck] at h
      obtain ⟨hres, hafter⟩ := Prod.mk.injEq .. ▸ (Except.ok.injEq _ _).mp h
      subst hres
      subst hafter
      intro dd hdd
      rw [lookup_ev_dd] at hdd
      have hdd2 : dd = decide (share > initThreshold none cfg) :=
        (JVal.b.injEq _ _).mp ((Option.some.injEq _ _).mp hdd.symm)
      subst hdd2
      refine ⟨rfl, ?_, ?_⟩
      · intro ht
        rw [ht]
        refine ⟨_, share, rfl, rfl, rfl, ?_, ?_⟩
        · by_cases hs : share > 3/10
          · simp [if_pos hs, hs]
          · simp only [if_neg hs]
            constructor
            · intro hcon; exact absurd hcon (by decide)
            · intro hcon; exact absurd hcon hs
        · by_cases hs : share > 3/10
          · simp only [if_pos hs]
            constructor
            · intro hcon; exact absurd hcon (by decide)
            · intro hcon; exact absurd hs hcon
          · simp [if_neg hs, hs]
      · intro hf
        rw [hf]
        simp
    · have hck := check_drift_ok ks ev cfg now alerts ref cur cols _
        (decide (share > initThreshold none cfg)) _ hd (getB_fallback ..) (create_alert_fallback ..)
      rw [hck] at h
      obtain ⟨hres, hafter⟩ := Prod.mk.injEq .. ▸ (Except.ok.injEq _ _).mp h
      subst hres
      subst hafter
      intro dd hdd
      rw [lookup_fallback_dd] at hdd
      have hdd2 : dd = decide (share > initThreshold none cfg) :=
        (JVal.b.injEq _ _).mp ((Option.some.injEq _ _).mp hdd.symm)
      subst hdd2
      refine ⟨rfl, ?_, ?_⟩
      · intro ht
        rw [ht]
        refine ⟨_, share, rfl, rfl, rfl, ?_, ?_⟩
        · by_cases hs : share > 3/10
          · simp [if_pos hs, hs]
          · simp only [if_neg hs]
            constructor
            · intro hcon; exact absurd hcon (by decide)
            · intro hcon; exact absurd hcon hs
        · by_cases hs : share > 3/10
          · simp only [if_pos hs]
            constructor
            · intro hcon; exact absurd hcon (by decide)
            · intro hcon; exact absurd hs hcon
          · simp [if_neg hs, hs]
      · intro hf
        rw [hf]
        simp

/-- Report produced by the fallback strategy on the drifting witness input. -/
def wDriftReport : PyDict :=
  fallbackReportDict "t" true 1 1 1 ["a"] [("a", ⟨1, 0⟩)] (1/10)

/-- Alert created from wDriftReport. -/
def wAlert : Alert :=
  { timestamp := "t"
    severity := "high"
    type := "data_drift"
    message := "Data drift detected! 1 out of 1 features have drifted."
    details := wDriftReport
    action := "Model retraining recommended" }

lemma wLoopSharp :
    simpleLoop ksSharp dfOnlyA dfOnlyA ["a"] = .ok (["a"], [("a", ⟨1, 0⟩)]) := by
  rw [simpleLoop_cons_run ksSharp dfOnlyA dfOnlyA "a" [] (by decide) (by decide),
    simpleLoop_nil]
  norm_num [ksSharp]

lemma wDriftReport_eval :
    simple_drift_detection ksSharp (1/10) "t" dfOnlyA dfOnlyA ["a"] =
      .ok wDriftReport := by
  simp only [simple_drift_detection, wLoopSharp]
  norm_num [wDriftReport, fallbackReportDict]

lemma wAlert_eval : create_alert "t" wDriftReport = .ok wAlert := by
  rw [show wDriftReport =
      fallbackReportDict "t" true 1 1 1 ["a"] [("a", ⟨1, 0⟩)] (1/10) from rfl,
    create_alert_fallback]
  norm_num [wAlert, wDriftReport, fallbackReportDict]
  rfl

lemma wCheck_eval :
    check_drift ksSharp .unavailable (1/10) "t" [] dfOnlyA dfOnlyA ["a"] =
      .ok ({ drift_report := wDriftReport, alerts := [wAlert],
             action_required := true }, [wAlert]) := by
  have hd : detect_data_drift ksSharp .unavailable
      (initThreshold none (1/10)) "t" dfOnlyA dfOnlyA ["a"] = .ok wDriftReport :=
    wDriftReport_eval
  have hck := check_drift_ok ksSharp .unavailable (1/10) "t" [] dfOnlyA dfOnlyA
    ["a"] wDriftReport true wAlert hd rfl wAlert_eval
  simpa using hck

/-- C3 witness: a drifting input appends exactly one high-severity alert. -/
theorem C3_witness :
    check_drift ksSharp .unavailable (1/10) "t" [] dfOnlyA dfOnlyA ["a"] =
      .ok ({ drift_report := wDriftReport, alerts := [wAlert],
             action_required := true }, [wAlert])
    ∧ wDriftReport.lookup "drift_detected" = some (.b true)
    ∧ ∃ a share, [wAlert] = [] ++ [a]
      ∧ wDriftReport.lookup "drift_share" = some (.q share)
      ∧ a.severity = (if share > 3/10 then "high" else "medium")
      ∧ (a.severity = "high" ↔ share > 3/10)
      ∧ (a.severity = "medium" ↔ ¬ share > 3/10) :=
  ⟨wCheck_eval, rfl,
    (C3_alert_severity_and_history ksSharp .unavailable (1/10) "t" [] dfOnlyA
      dfOnlyA ["a"] _ _ wCheck_eval true rfl).2.1 rfl⟩

lemma check_drift_spec (ks : List ℚ → List ℚ → KSResult) (ev : EvidentlyOutcome)
    (cfg : ℚ) (now : String) (alerts : List Alert) (ref cur : DataFrame)
    (cols : List String) (res : CheckDriftResult) (after : List Alert)
    (h : check_drift ks ev cfg now alerts ref cur cols = .ok (res, after)) :
    res.alerts = after
    ∧ (res.action_required = true → ∃ a, after = alerts ++ [a])
    ∧ (res.action_required = false → after = alerts) := by
  cases hd : detect_data_drift ks ev (initThreshold none cfg) now ref cur cols with
  | error e =>
    exfalso
    simp only [check_drift, hd] at h
    exact absurd h (by simp [Bind.bind, Except.bind])
  | ok report =>
    rcases detect_data_drift_shape ks ev (initThreshold none cfg) now ref cur
        cols report hd with ⟨share, nd, hrep⟩ | ⟨share, d, s, hrep, hloop, hshare⟩
    all_goals subst hrep
    · have hck := check_drift_ok ks ev cfg now alerts ref cur cols _
        (decide (share > initThreshold none cfg)) _ hd (getB_ev ..) (create_alert_ev ..)
      rw [hck] at h
      obtain ⟨hres, hafter⟩ := Prod.mk.injEq .. ▸ (Except.ok.injEq _ _).mp h
      subst hres
      subst hafter
      refine ⟨rfl, ?_, ?_⟩
      · intro ht
        rw [show (decide (share > initThreshold none cfg)) = true from ht]
        simp only [eq_self_iff_true, if_true]
        exact ⟨_, rfl⟩
      · intro hf
        rw [show (decide (share > initThreshold none cfg)) = false from hf]
        simp
    · have hck := check_drift_ok ks ev cfg now alerts ref cur cols _
        (decide (share > initThreshold none cfg)) _ hd (getB_fallback ..) (create_alert_fallback ..)
      rw [hck] at h
      obtain ⟨hres, hafter⟩ := Prod.mk.injEq .. ▸ (Except.ok.injEq _ _).mp h
      subst hres
      subst hafter
      refine ⟨rfl, ?_, ?_⟩
      · intro ht
        rw [show (decide (share > initThreshold none cfg)) = true from ht]
        simp only [eq_self_iff_true, if_true]
        exact ⟨_, rfl⟩
      · intro hf
        rw [show (decide (share > initThreshold none cfg)) = false from hf]
        simp

lemma runCalls_spec (ks : List ℚ → List ℚ → KSResult) (ev : EvidentlyOutcome)
    (cfg : ℚ) (now : String) :
    ∀ inputs (alerts : List Alert) results finalAlerts,
      runCalls ks ev cfg now inputs alerts = .ok (results, finalAlerts) →
      (results = [] → finalAlerts = alerts)
      ∧ ((∀ r ∈ results, r.action_required = true) →
          finalAlerts.length = alerts.length + inputs.length)
      ∧ (∀ r, results.getLast? = some r → r.alerts = finalAlerts) := by
  intro inputs
  induction inputs with
  | nil =>
    intro alerts results finalAlerts h
    simp only [runCalls] at h
    obtain ⟨hres, hfin⟩ := Prod.mk.injEq .. ▸ (Except.ok.injEq _ _).mp h
    subst hres
    subst hfin
    exact ⟨fun _ => rfl, fun _ => by simp, fun r hr => by simp at hr⟩
  | cons input rest ih =>
    obtain ⟨ref, cur, cols⟩ := input
    intro alerts results finalAlerts h
    simp only [runCalls] at h
    cases hc : check_drift ks ev cfg now alerts ref cur cols with
    | error e => rw [hc] at h; exact absurd h (by simp [Bind.bind, Except.bind])
    | ok p =>
      obtain ⟨res, after⟩ := p
      rw [hc, bind_ok_py] at h
      cases hr : runCalls ks ev cfg now rest after with
      | error e => rw [hr] at h; exact absurd h (by simp [Bind.bind, Except.bind])
      | ok q =>
        obtain ⟨results2, final2⟩ := q
        rw [hr, bind_ok_py] at h
        obtain ⟨hres, hfin⟩ := Prod.mk.injEq .. ▸ (Except.ok.injEq _ _).mp h
        subst hres
        subst hfin
        have hspec := check_drift_spec ks ev cfg now alerts ref cur cols res after hc
        have hihs := ih after results2 _ hr
        refine ⟨fun hcon => absurd hcon (by simp), ?_, ?_⟩
        · intro hall
          have hres1 : res.action_required = true := hall res (by simp)
          obtain ⟨a, ha⟩ := hspec.2.1 hres1
          have hlen2 := hihs.2.1 (fun r hrm => hall r (List.mem_cons_of_mem _ hrm))
          rw [hlen2, ha]
          simp [List.length_append]
          omega
        · intro r hrl
          cases results2 with
          | nil =>
            simp at hrl
            subst hrl
            rw [hspec.1]
            exact (hihs.1 rfl).symm
          | cons r2 rest2 =>
            rw [List.getLast?_cons_cons] at hrl
            exact hihs.2.2 r hrl

/-- C10: the alerts field of every mapping check_drift returns is the
detector instance's entire accumulated alert history, not only the alert of
the current call: each successful call returns the post-call history (the
prior history plus exactly one alert when drift was flagged, unchanged
otherwise), and a sequence of k drift-detecting calls starting from a fresh
instance leaves a history of length k, which is what the k-th returned
mapping exposes. -/
theorem C10_alerts_expose_whole_history (ks : List ℚ → List ℚ → KSResult)
    (ev : EvidentlyOutcome) (cfg : ℚ) (now : String) :
    (∀ alerts ref cur cols res after,
      check_drift ks ev cfg now alerts ref cur cols = .ok (res, after) →
        res.alerts = after
        ∧ (res.action_required = true → ∃ a, after = alerts ++ [a])
        ∧ (res.action_required = false → after = alerts))
    ∧ (∀ inputs results finalAlerts,
        runCalls ks ev cfg now inputs [] = .ok (results, finalAlerts) →
        (∀ r ∈ results, r.action_required = true) →
          finalAlerts.length = inputs.length
          ∧ ∀ r, results.getLast? = some r → r.alerts = finalAlerts) := by
  constructor
  · intro alerts ref cur cols res after h
    exact check_drift_spec ks ev cfg now alerts ref cur cols res after h
  · intro inputs results finalAlerts h hall
    have hs := runCalls_spec ks ev cfg now inputs [] results finalAlerts h
    exact ⟨by simpa using hs.2.1 hall, hs.2.2⟩

lemma wCheck_eval_any (alerts : List Alert) :
    check_drift ksSharp .unavailable (1/10) "t" alerts dfOnlyA dfOnlyA ["a"] =
      .ok ({ drift_report := wDriftReport, alerts := alerts ++ [wAlert],
             action_required := true }, alerts ++ [wAlert]) := by
  have hd : detect_data_drift ksSharp .unavailable
      (initThreshold none (1/10)) "t" dfOnlyA dfOnlyA ["a"] = .ok wDriftReport :=
    wDriftReport_eval
  have hck := check_drift_ok ksSharp .unavailable (1/10) "t" alerts dfOnlyA
    dfOnlyA ["a"] wDriftReport true wAlert hd rfl wAlert_eval
  simpa using hck

/-- First returned mapping of the two-call C10 witness run. -/
def wRes1 : CheckDriftResult :=
  { drift_report := wDriftReport, alerts := [wAlert], action_required := true }

/-- Second returned mapping of the two-call C10 witness run. -/
def wRes2 : CheckDriftResult :=
  { drift_report := wDriftReport, alerts := [wAlert, wAlert],
    action_required := true }

lemma wRunCalls_eval :
    runCalls ksSharp .unavailable (1/10) "t"
      [(dfOnlyA, dfOnlyA, ["a"]), (dfOnlyA, dfOnlyA, ["a"])] [] =
      .ok ([wRes1, wRes2], [wAlert, wAlert]) := by
  simp only [runCalls, wCheck_eval_any, bind_ok_py]
  rfl

/-- C10 witness: two drift-detecting calls on one instance leave a history of
length two, which the second returned mapping exposes whole. -/
theorem C10_witness :
    runCalls ksSharp .unavailable (1/10) "t"
      [(dfOnlyA, dfOnlyA, ["a"]), (dfOnlyA, dfOnlyA, ["a"])] [] =
      .ok ([wRes1, wRes2], [wAlert, wAlert])
    ∧ (∀ r ∈ [wRes1, wRes2], r.action_required = true)
    ∧ ([wAlert, wAlert] : List Alert).length = 2
    ∧ (∀ r, ([wRes1, wRes2]).getLast? = some r → r.alerts = [wAlert, wAlert]) :=
  ⟨wRunCalls_eval, by decide,
    ((C10_alerts_expose_whole_history ksSharp .unavailable (1/10) "t").2
      [(dfOnlyA, dfOnlyA, ["a"]), (dfOnlyA, dfOnlyA, ["a"])] [wRes1, wRes2]
      [wAlert, wAlert] wRunCalls_eval (by decide)).1,
    ((C10_alerts_expose_whole_history ksSharp .unavailable (1/10) "t").2
      [(dfOnlyA, dfOnlyA, ["a"]), (dfOnlyA, dfOnlyA, ["a"])] [wRes1, wRes2]
      [wAlert, wAlert] wRunCalls_eval (by decide)).2⟩

/-- C8: at the branching state the decision callable selects exactly one of
the two branches from the recorded drift verdict alone — trigger_retrain when
the verdict is true, skip_retrain when it is false — and the scheduler then
runs every task of the chosen branch and skips every task of the unchosen
one. -/
theorem C8_branch_selected_solely_by_verdict (v : Bool) :
    check_drift_decision (some v) =
      (if v then DagTask.trigger_retrain else DagTask.skip_retrain)
    ∧ runStates (check_drift_decision (some v)) .trigger_retrain =
      (if v then .success else .skipped)
    ∧ runStates (check_drift_decision (some v)) .evaluate_new_model =
      (if v then .success else .skipped)
    ∧ runStates (check_drift_decision (some v)) .deploy_to_staging =
      (if v then .success else .skipped)
    ∧ runStates (check_drift_decision (some v)) .send_drift_alert =
      (if v then .success else .skipped)
    ∧ runStates (check_drift_decision (some v)) .skip_retrain =
      (if v then .skipped else .success) := by
  cases v <;> exact ⟨rfl, rfl, rfl, rfl, rfl, rfl⟩

/-- C9: a run whose branch decision selects skip_retrain executes the skip
marker, never enters the retraining branch, and still ends with the end task
successful, because its none_failed_min_one_success trigger rule treats a
skipped branch as non-failed and needs only one successful upstream. -/
theorem C9_skip_branch_still_reaches_end (v : Option Bool)
    (h : check_drift_decision v = .skip_retrain) :
    runStates (check_drift_decision v) .skip_retrain = .success
    ∧ runStates (check_drift_decision v) .trigger_retrain = .skipped
    ∧ runStates (check_drift_decision v) .evaluate_new_model = .skipped
    ∧ runStates (check_drift_decision v) .deploy_to_staging = .skipped
    ∧ runStates (check_drift_decision v) .send_drift_alert = .skipped
    ∧ runStates (check_drift_decision v) .task_end = .success
    ∧ (∀ s1 s2 : TaskState, s1 ≠ .failed → s2 ≠ .failed →
        (s1 = .success ∨ s2 = .success) →
        ruleEval .none_failed_min_one_success [s1, s2] = .success) := by
  rw [h]
  refine ⟨rfl, rfl, rfl, rfl, rfl, rfl, ?_⟩
  intro s1 s2 h1 h2 h3
  revert h1 h2 h3
  cases s1 <;> cases s2 <;> decide

/-- C9 witness at the no-drift verdict. -/
theorem C9_witness :
    check_drift_decision (some false) = DagTask.skip_retrain
    ∧ runStates (check_drift_decision (some false)) .skip_retrain = .success
    ∧ runStates (check_drift_decision (some false)) .task_end = .success :=
  ⟨rfl, (C9_skip_branch_still_reaches_end (some false) rfl).1,
    (C9_skip_branch_still_reaches_end (some false) rfl).2.2.2.2.2.1⟩

/-- C7 (amended): a WorkflowRun with the reference table missing never invokes
the Drift Analysis Engine (detect_data_drift is not reached) and pushes no
verdict; the branch decision then treats the absent XCom like a no-drift
verdict, so the run executes the same skip_retrain branch, skips the whole
retraining branch, and ends successfully — there is no separate
skipped_no_reference outcome. -/
theorem C7_missing_reference_skips_engine (ks : List ℚ → List ℚ → KSResult)
    (ev : EvidentlyOutcome) (cfg : ℚ) (now : String) (ref cur : DataFrame)
    (cols : List String) :
    ∃ o : RunOutcome,
      runDag ks ev cfg now false ref cur cols = .ok o
      ∧ o.engine_invoked = false
      ∧ o.states .skip_retrain = .success
      ∧ o.states .trigger_retrain = .skipped
      ∧ o.states .send_drift_alert = .skipped
      ∧ o.states .task_end = .success :=
  ⟨_, rfl, rfl, rfl, rfl, rfl, rfl⟩

/-- Report produced by the fallback strategy on the single-column no-drift
input used for the C7 counterexample. -/
def wCalmAReport : PyDict :=
  fallbackReportDict "t" false 0 0 1 [] [("a", ⟨0, 1⟩)] (1/10)

lemma wLoopCalmA :
    simpleLoop ksCalm dfOnlyA dfOnlyA ["a"] = .ok ([], [("a", ⟨0, 1⟩)]) := by
  rw [simpleLoop_cons_run ksCalm dfOnlyA dfOnlyA "a" [] (by decide) (by decide),
    simpleLoop_nil]
  norm_num [ksCalm]

lemma wCalmAReport_eval :
    simple_drift_detection ksCalm (1/10) "t" dfOnlyA dfOnlyA ["a"] =
      .ok wCalmAReport := by
  simp only [simple_drift_detection, wLoopCalmA]
  norm_num [wCalmAReport, fallbackReportDict]

lemma wDetectTask_eval :
    detect_drift_task ksCalm .unavailable (1/10) "t" true dfOnlyA dfOnlyA
      ["a"] = .ok { engine_invoked := true, xcom_drift_detected := some false } := by
  have hd : detect_data_drift ksCalm .unavailable
      (initThreshold none (1/10)) "t" dfOnlyA dfOnlyA ["a"] = .ok wCalmAReport :=
    wCalmAReport_eval
  simp only [detect_drift_task]
  rw [if_neg (by decide : ¬ (true = false)), hd, bind_ok_py,
    show getB wCalmAReport "drift_detected" = .ok false from rfl, bind_ok_py]
  rfl

/-- C7 counterexample: with the reference missing, the run does skip the
engine, but its task states are exactly those of a reference-present run whose
verdict was no drift: both execute skip_retrain and end; no distinct
skipped_no_reference outcome exists. -/
theorem C7_counterexample :
    ∃ o1 o2 : RunOutcome,
      runDag ksCalm .unavailable (1/10) "t" false dfOnlyA dfOnlyA ["a"] = .ok o1
      ∧ runDag ksCalm .unavailable (1/10) "t" true dfOnlyA dfOnlyA ["a"] = .ok o2
      ∧ o1.engine_invoked = false
      ∧ o2.engine_invoked = true
      ∧ o2.states .skip_retrain = .success
      ∧ o1.states .skip_retrain = .success
      ∧ (∀ t, o1.states t = o2.states t) := by
  refine ⟨{ engine_invoked := false,
            states := runStates (check_drift_decision none) },
          { engine_invoked := true,
            states := runStates (check_drift_decision (some false)) },
          rfl, ?_, rfl, rfl, rfl, rfl, ?_⟩
  · simp only [runDag, wDetectTask_eval, bind_ok_py]
    rfl
  · intro t
    cases t <;> rfl
